import Mathlib

/-
Verification of the symbol-resolution, synthesis and reachability pipeline of
the wasm linker driver (lld/wasm/Driver.cpp), as a shallow embedding.

The embedding follows the source closely: configuration derivation
(setConfigs), option checking (checkOptions), ABI-mandated synthetic symbol
creation (createSyntheticSymbols, createOptionalSymbols), the wrap transform
(addWrappedSymbols, wrapSymbols) and the indirect function table resolution
(resolveIndirectFunctionTable), plus the phase sequencing of linkerMain with
its error-count gates.
-/

namespace WasmLd

/-- Policy for unresolved symbols, as in UnresolvedPolicy (Config.h). -/
inductive UnresolvedPolicy where
  | reportError
  | warn
  | ignore
  | importFuncs
  deriving DecidableEq, Repr

/-- The subset of the wasm::Configuration fields that the driver logic
modelled here reads or writes.  Field defaults mirror the option defaults of
readConfigs where a default is fixed there. -/
structure Config where
  compressRelocations : Bool := false
  entry : String := ""
  exportTable : Bool := false
  importMemory : Bool := false
  sharedMemory : Bool := false
  importTable : Bool := false
  ltoo : Nat := 2
  ltoPartitions : Nat := 1
  outputFile : String := "a.out"
  relocatable : Bool := false
  gcSections : Bool := true
  pie : Bool := false
  shared : Bool := false
  stripAll : Bool := false
  stripDebug : Bool := false
  unresolvedSymbols : UnresolvedPolicy := .reportError
  is64 : Option Bool := none
  isPic : Bool := false
  thinLTOJobsValid : Bool := true
  deriving DecidableEq, Repr

/-- setConfigs (Driver.cpp lines 453 to 466): derives isPic from pie and
shared, forces importTable under isPic (erroring when exportTable was also
requested), and under shared forces importMemory and the import-functions
unresolved-symbol policy.  Returns the updated configuration together with
the list of errors recorded. -/
def setConfigs (c : Config) : Config × List String :=
  let c1 : Config := { c with isPic := c.pie || c.shared }
  let errs : List String :=
    if c1.isPic && c1.exportTable then
      ["-shared/-pie is incompatible with --export-table"]
    else []
  let c2 : Config := if c1.isPic then { c1 with importTable := true } else c1
  let c3 : Config :=
    if c2.shared then
      { c2 with importMemory := true, unresolvedSymbols := .importFuncs }
    else c2
  (c3, errs)

/-- checkOptions (Driver.cpp lines 470 to 526): the errors recorded for
illegal option combinations, in source order.  Warnings are omitted since
they do not increment the error count.  The validity of the thinlto-jobs
value is abstracted as the field thinLTOJobsValid. -/
def checkOptions (c : Config) (hasUndefinedArg : Bool) : List String :=
  (if !c.stripDebug && !c.stripAll && c.compressRelocations then
     ["--compress-relocations is incompatible with output debug information"]
   else []) ++
  (if c.ltoo > 3 then ["invalid optimization level for LTO"] else []) ++
  (if c.ltoPartitions = 0 then
     ["--lto-partitions: number of threads must be > 0"] else []) ++
  (if !c.thinLTOJobsValid then ["--thinlto-jobs: invalid job count"] else []) ++
  (if c.pie && c.shared then
     ["-shared and -pie may not be used together"] else []) ++
  (if c.outputFile = "" then ["no output file specified"] else []) ++
  (if c.importTable && c.exportTable then
     ["--import-table and --export-table may not be used together"] else []) ++
  (if c.relocatable then
     (if c.entry ≠ "" then
        ["entry point specified for relocatable output file"] else []) ++
     (if c.gcSections then
        ["-r and --gc-sections may not be used together"] else []) ++
     (if c.compressRelocations then
        ["-r -and --compress-relocations may not be used together"] else []) ++
     (if hasUndefinedArg then
        ["-r -and --undefined may not be used together"] else []) ++
     (if c.pie then ["-r and -pie may not be used together"] else []) ++
     (if c.sharedMemory then
        ["-r and --shared-memory may not be used together"] else [])
   else [])

/-- Kind of a synthetic symbol created by the driver. -/
inductive SymKind where
  | function
  | global
  | data
  deriving DecidableEq, Repr

/-- A synthetic symbol as created by createSyntheticSymbols or
createOptionalSymbols, carrying the attributes the driver sets on it. -/
structure SynthSym where
  name : String
  kind : SymKind
  isUndefined : Bool
  isMutable : Bool := false
  initZero : Bool := false
  isLive : Bool := false
  isUsedInRegularObj : Bool := false
  optionalSym : Bool := false
  is64 : Bool := false
  deriving DecidableEq, Repr

/-- createUndefinedGlobal (Driver.cpp lines 556 to 563): an undefined
(imported) global of the given type, flagged used-in-regular-object.  It is
not marked live here; markLive is a separate call at the use sites. -/
def createUndefinedGlobal (name : String) (isMutable is64 : Bool) : SynthSym :=
  { name := name, kind := .global, isUndefined := true, isMutable := isMutable,
    is64 := is64, isUsedInRegularObj := true }

/-- createGlobal plus createGlobalVariable (Driver.cpp lines 565 to 583): a
defined hidden synthetic global whose init expression is the zero constant of
the configured width. -/
def createGlobalVariable (c : Config) (name : String) (isMutable : Bool) :
    SynthSym :=
  { name := name, kind := .global, isUndefined := false, isMutable := isMutable,
    initZero := true, is64 := c.is64.getD false }

/-- createOptionalGlobal (Driver.cpp lines 585 to 589): like
createGlobalVariable but entered through addOptionalGlobalSymbols. -/
def createOptionalGlobal (c : Config) (name : String) (isMutable : Bool) :
    SynthSym :=
  { createGlobalVariable c name isMutable with optionalSym := true }

/-- Symbol::markLive as used on synthetic symbols. -/
def markLive (s : SynthSym) : SynthSym := { s with isLive := true }

/-- createSyntheticSymbols (Driver.cpp lines 592 to 641): the list of
symbols created, in creation order.  In the isPic branch the stack pointer is
created undefined (no markLive call on it); memoryBase and tableBase are
created undefined and then marked live.  In the non-isPic branch the stack
pointer is a defined mutable global, marked live. -/
def createSyntheticSymbols (c : Config) : List SynthSym :=
  if c.relocatable then [] else
    [{ name := "__wasm_call_ctors", kind := .function, isUndefined := false }] ++
    (if c.isPic then
       [createUndefinedGlobal "__stack_pointer" true (c.is64.getD false),
        markLive (createUndefinedGlobal "__memory_base" false (c.is64.getD false)),
        markLive (createUndefinedGlobal "__table_base" false false)]
     else
       [markLive (createGlobalVariable c "__stack_pointer" true)]) ++
    (if c.sharedMemory && !c.relocatable then
       [createGlobalVariable c "__tls_base" true,
        createGlobalVariable c "__tls_size" false,
        createGlobalVariable c "__tls_align" false,
        { name := "__wasm_init_tls", kind := .function, isUndefined := false,
          is64 := c.is64.getD false }]
     else [])

/-- createOptionalSymbols (Driver.cpp lines 643 to 670): the optional
symbols created, in creation order. -/
def createOptionalSymbols (c : Config) : List SynthSym :=
  if c.relocatable then [] else
    [{ name := "__dso_handle", kind := .data, isUndefined := false,
       optionalSym := true }] ++
    (if !c.shared then
       [{ name := "__data_end", kind := .data, isUndefined := false,
          optionalSym := true }]
     else []) ++
    (if !c.isPic then
       [{ name := "__global_base", kind := .data, isUndefined := false,
          optionalSym := true },
        { name := "__heap_base", kind := .data, isUndefined := false,
          optionalSym := true },
        { name := "__memory_base", kind := .data, isUndefined := false,
          optionalSym := true },
        { name := "__table_base", kind := .data, isUndefined := false,
          optionalSym := true }]
     else []) ++
    (if !c.sharedMemory then [createOptionalGlobal c "__tls_base" false]
     else [])

/-- Lookup of a created symbol by name in a creation list. -/
def findSym (l : List SynthSym) (name : String) : Option SynthSym :=
  l.find? (fun s => s.name == name)

/-- View of the symbol found in the symbol table under the reserved
indirect-function-table name, with the attributes resolveIndirectFunctionTable
inspects. -/
structure ExistingSym where
  isTable : Bool
  isDefined : Bool
  isLive : Bool
  forceExport : Bool
  deriving DecidableEq, Repr

/-- The table symbol produced by the resolver: binding, liveness and export
attributes, and whether an existing symbol was reused unchanged. -/
structure ResolvedTable where
  isUndefined : Bool
  isLive : Bool
  forceExport : Bool
  reused : Bool
  deriving DecidableEq, Repr

/-- createDefinedIndirectFunctionTable (Driver.cpp lines 779 to 790): a
locally defined synthetic table, marked live, force-exported per
exportTable. -/
def createDefinedIndirectFunctionTable (c : Config) : ResolvedTable :=
  { isUndefined := false, isLive := true, forceExport := c.exportTable,
    reused := false }

/-- createUndefinedIndirectFunctionTable (Driver.cpp lines 792 to 805): an
undefined (imported) synthetic table, marked live, force-exported per
exportTable. -/
def createUndefinedIndirectFunctionTable (c : Config) : ResolvedTable :=
  { isUndefined := true, isLive := true, forceExport := c.exportTable,
    reused := false }

/-- resolveIndirectFunctionTable (Driver.cpp lines 807 to 838).  The
existing argument is the result of the symbol-table lookup of the reserved
name.  Note that in the importTable branch an existing (necessarily
undefined) table symbol is returned as-is, with its liveness and export
flags unchanged. -/
def resolveIndirectFunctionTable (c : Config) (existing : Option ExistingSym) :
    Except String (Option ResolvedTable) :=
  match existing with
  | some t =>
    if !t.isTable then
      .error ("reserved symbol must be of type table: __indirect_function_table")
    else if t.isDefined then
      .error ("reserved symbol must not be defined in input files: __indirect_function_table")
    else if c.importTable then
      .ok (some { isUndefined := !t.isDefined, isLive := t.isLive,
                  forceExport := t.forceExport, reused := true })
    else if t.isLive || c.exportTable then
      .ok (some (createDefinedIndirectFunctionTable c))
    else
      .ok none
  | none =>
    if c.importTable then
      .ok (some (createUndefinedIndirectFunctionTable c))
    else if c.exportTable then
      .ok (some (createDefinedIndirectFunctionTable c))
    else
      .ok none

/-- The mutable symbol attributes the wrap pass touches (Symbol in
Symbols.h, restricted to the fields read or written by addWrappedSymbols).
The id field models pointer identity of the arena-allocated symbol. -/
structure Sym where
  id : Nat
  canInline : Bool := true
  isUsedInRegularObj : Bool := false
  deriving DecidableEq, Repr

/-- The symbol table as seen by the wrap pass: name-keyed entries plus a
counter supplying fresh symbol identities. -/
structure Symtab where
  syms : List (String × Sym)
  nextId : Nat
  deriving DecidableEq, Repr

/-- symtab lookup by name (SymbolTable::find). -/
def Symtab.find (st : Symtab) (name : String) : Option Sym :=
  (st.syms.find? (fun p => p.1 == name)).map Prod.snd

/-- addUndefined (Driver.cpp lines 714 to 717): symtab: addUndefinedFunction.
Returns the existing symbol for the name when present, otherwise inserts a
fresh undefined function symbol.  The result is the identity of the resolved
symbol. -/
def Symtab.addUndefined (st : Symtab) (name : String) : Symtab × Nat :=
  match st.find name with
  | some s => (st, s.id)
  | none =>
    ({ syms := st.syms ++ [(name, { id := st.nextId })],
       nextId := st.nextId + 1 },
     st.nextId)

/-- In-place update of the symbol with the given identity, modelling a write
through the symbol pointer. -/
def Symtab.update (st : Symtab) (id : Nat) (f : Sym → Sym) : Symtab :=
  { st with
    syms := st.syms.map (fun p => if p.2.id = id then (p.1, f p.2) else p) }

/-- WrappedSymbol (Driver.cpp lines 708 to 712): the triple of symbol
identities recorded per effective wrap request. -/
structure WrappedSymbol where
  sym : Nat
  real : Nat
  wrap : Nat
  deriving DecidableEq, Repr

/-- Running state of the addWrappedSymbols loop: symbol table, the names
already seen, and the records produced so far. -/
structure WrapState where
  st : Symtab
  seen : List String
  v : List WrappedSymbol
  deriving DecidableEq, Repr

/-- One iteration of the addWrappedSymbols loop (Driver.cpp lines 728 to
750): skip names already seen; skip names with no symbol; otherwise create
the two undefined shadow symbols, record the triple, clear canInline on the
original and the real shadow, set usedInRegularObj on the original and the
wrap shadow, and clear it on the real shadow. -/
def addWrappedStep (s : WrapState) (name : String) : WrapState :=
  if name ∈ s.seen then s else
  let s : WrapState := { s with seen := s.seen ++ [name] }
  match s.st.find name with
  | none => s
  | some sym =>
    let p1 := s.st.addUndefined ("__real_" ++ name)
    let p2 := p1.1.addUndefined ("__wrap_" ++ name)
    let realId := p1.2
    let wrapId := p2.2
    let st3 := p2.1.update realId (fun x => { x with canInline := false })
    let st4 := st3.update sym.id (fun x => { x with canInline := false })
    let st5 := st4.update sym.id (fun x => { x with isUsedInRegularObj := true })
    let st6 := st5.update wrapId (fun x => { x with isUsedInRegularObj := true })
    let st7 := st6.update realId (fun x => { x with isUsedInRegularObj := false })
    { s with
      st := st7,
      v := s.v ++ [{ sym := sym.id, real := realId, wrap := wrapId }] }

/-- addWrappedSymbols (Driver.cpp lines 724 to 752): fold the loop body over
the wrap arguments, starting from an empty seen set and an empty record
vector. -/
def addWrappedSymbols (args : List String) (st : Symtab) :
    Symtab × List WrappedSymbol :=
  let s := args.foldl addWrappedStep { st := st, seen := [], v := [] }
  (s.st, s.v)

/-- The rename map built by wrapSymbols (Driver.cpp lines 760 to 764): for
each record, sym is inserted mapping to wrap, then real mapping to sym;
later insertions win, as in the DenseMap. -/
def buildWrapMap (wrapped : List WrappedSymbol) : Nat → Option Nat :=
  wrapped.foldl
    (fun m w k =>
      if k = w.real then some w.sym
      else if k = w.sym then some w.wrap
      else m k)
    (fun _ => none)

/-- The per-slot rewrite of wrapSymbols (Driver.cpp lines 767 to 772): a
slot is replaced only when its symbol is found in the map. -/
def wrapSlot (m : Nat → Option Nat) (s : Nat) : Nat := (m s).getD s

/-- The input-file half of wrapSymbols (Driver.cpp lines 766 to 772): every
mutable symbol-reference slot of every object file is rewritten through the
map. -/
def wrapInputFiles (wrapped : List WrappedSymbol) (files : List (List Nat)) :
    List (List Nat) :=
  files.map (fun syms => syms.map (wrapSlot (buildWrapMap wrapped)))

/-- Modelled from the spec: the symbol-table half of wrapSymbols calls
SymbolTable::wrap (Driver.cpp lines 775 to 776), implemented in
SymbolTable.cpp which is not part of this corpus.  Per the spec, the
canonical table entries are rewritten so that all sites that referenced the
original name now reach the wrapper, and sites referencing the real escape
hatch reach the original implementation: each entry symbol reference goes
through the same rename map. -/
def symtabWrap (wrapped : List WrappedSymbol)
    (entries : List (String × Nat)) : List (String × Nat) :=
  entries.map (fun e => (e.1, wrapSlot (buildWrapMap wrapped) e.2))

/-- wrapSymbols (Driver.cpp lines 759 to 777): rewrite the input files, then
the symbol-table entries. -/
def wrapSymbols (wrapped : List WrappedSymbol) (files : List (List Nat))
    (entries : List (String × Nat)) :
    List (List Nat) × List (String × Nat) :=
  (wrapInputFiles wrapped files, symtabWrap wrapped entries)

/-- Which pipeline phases of linkerMain ran, and the errors accumulated.
Externally caused diagnostics (file reading, output creation, symbol
resolution, LTO) are abstracted as the ExternalEvents parameters. -/
structure LinkTrace where
  errors : List String
  ranCreateSyntheticSymbols : Bool := false
  ranCreateOptionalSymbols : Bool := false
  ranAddWrappedSymbols : Bool := false
  ranWrapSymbols : Bool := false
  ranMarkLive : Bool := false
  ranTableResolution : Bool := false
  ranWriter : Bool := false
  deriving DecidableEq, Repr

/-- Abstraction of the error sources of linkerMain that are outside the
modelled core: each field is the list of errors the corresponding phase
records.  anyWrapped abstracts whether addWrappedSymbols returned a
non-empty vector. -/
structure ExternalEvents where
  createFilesErrors : List String := []
  outputFileErrors : List String := []
  addFilesErrors : List String := []
  entryPhaseErrors : List String := []
  ltoPhaseErrors : List String := []
  exportPhaseErrors : List String := []
  anyWrapped : Bool := false
  deriving DecidableEq, Repr

/-- linkerMain (Driver.cpp lines 840 to 1039) from the point where
readConfigs has produced the configuration: the phase sequence with its
error-count gates.  Each gate returns as soon as the accumulated error list
is non-empty, exactly where the source checks errorCount(). -/
def linkerMain (c0 : Config) (hasUndefinedArg : Bool) (ev : ExternalEvents) :
    LinkTrace :=
  let e0 := ev.createFilesErrors
  if e0 ≠ [] then { errors := e0 } else
  let c := (setConfigs c0).1
  let e1 := (setConfigs c0).2 ++ checkOptions c hasUndefinedArg
  if e1 ≠ [] then { errors := e0 ++ e1 } else
  let e2 := e0 ++ e1 ++ ev.outputFileErrors
  if e2 ≠ [] then { errors := e2 } else
  -- createSyntheticSymbols runs, then the addFile loop, then a gate
  let e3 := e2 ++ ev.addFilesErrors
  if e3 ≠ [] then { errors := e3, ranCreateSyntheticSymbols := true } else
  -- undefined and export forcing, entry handling, call-dtors handling and
  -- createOptionalSymbols all run before the next gate
  let e4 := e3 ++ ev.entryPhaseErrors
  if e4 ≠ [] then
    { errors := e4, ranCreateSyntheticSymbols := true,
      ranCreateOptionalSymbols := true } else
  -- addWrappedSymbols, libcall handling, LTO, symbol variants, then gates
  let e5 := e4 ++ ev.ltoPhaseErrors
  if e5 ≠ [] then
    { errors := e5, ranCreateSyntheticSymbols := true,
      ranCreateOptionalSymbols := true, ranAddWrappedSymbols := true } else
  -- wrapSymbols (when any symbol was wrapped), export marking, weak
  -- undefines, then the gate before markLive
  let e6 := e5 ++ ev.exportPhaseErrors
  if e6 ≠ [] then
    { errors := e6, ranCreateSyntheticSymbols := true,
      ranCreateOptionalSymbols := true, ranAddWrappedSymbols := true,
      ranWrapSymbols := ev.anyWrapped } else
  -- markLive, then table resolution for non-relocatable output, then the
  -- writer
  { errors := e6, ranCreateSyntheticSymbols := true,
    ranCreateOptionalSymbols := true, ranAddWrappedSymbols := true,
    ranWrapSymbols := ev.anyWrapped, ranMarkLive := true,
    ranTableResolution := !c.relocatable, ranWriter := true }

/-! Helper lemmas. -/

theorem setConfigs_preserves (c : Config) :
    (setConfigs c).1.relocatable = c.relocatable ∧
    (setConfigs c).1.entry = c.entry ∧
    (setConfigs c).1.gcSections = c.gcSections := by
  cases hp : c.pie <;> cases hs : c.shared <;> simp [setConfigs, hp, hs]

theorem forall₂_map_self {α β : Type} {R : α → β → Prop} {f : α → β} :
    ∀ l : List α, (∀ x ∈ l, R x (f x)) → List.Forall₂ R l (l.map f)
  | [], _ => List.Forall₂.nil
  | a :: l, h =>
    List.Forall₂.cons (h a (by simp))
      (forall₂_map_self l (fun x hx => h x (by simp [hx])))

/-! Claim theorems. -/

/-- C1, counterexample: with importTable configured and an existing undefined
reserved-name table symbol that is not live, the resolver returns the
existing symbol unchanged; in particular the result is not marked live,
contradicting the claim that the import-branch table symbol is marked live. -/
theorem c1_reuse_counterexample :
    resolveIndirectFunctionTable { importTable := true }
        (some { isTable := true, isDefined := false, isLive := false,
                forceExport := false }) =
      .ok (some { isUndefined := true, isLive := false, forceExport := false,
                  reused := true }) := rfl

/-- C1, amended: the indirect function table is resolved to exactly one of
three mutually exclusive outcomes.  If importTable is configured, the table
symbol is undefined/imported: an existing undefined reserved-name table
symbol is reused as-is, with its liveness and force-export flags unchanged,
while a synthesized one is marked live and force-exported per exportTable.
Else, if an existing reserved-name table symbol is live or exportTable is
configured, a locally defined table symbol is synthesized, marked live, with
forced-export propagated.  Else no table symbol is created. -/
theorem c1_indirect_table_three_way (c : Config) (ex : Option ExistingSym)
    (hvalid : ∀ t, ex = some t → t.isTable = true ∧ t.isDefined = false) :
    (c.importTable = true →
      (ex = none →
        resolveIndirectFunctionTable c ex =
          .ok (some { isUndefined := true, isLive := true,
                      forceExport := c.exportTable, reused := false })) ∧
      (∀ t, ex = some t →
        resolveIndirectFunctionTable c ex =
          .ok (some { isUndefined := true, isLive := t.isLive,
                      forceExport := t.forceExport, reused := true }))) ∧
    (c.importTable = false →
      (((∃ t, ex = some t ∧ t.isLive = true) ∨ c.exportTable = true) →
        resolveIndirectFunctionTable c ex =
          .ok (some { isUndefined := false, isLive := true,
                      forceExport := c.exportTable, reused := false })) ∧
      (c.exportTable = false → (∀ t, ex = some t → t.isLive = false) →
        resolveIndirectFunctionTable c ex = .ok none)) := by
  cases ex with
  | none =>
    constructor
    · intro hi
      constructor
      · intro _
        simp [resolveIndirectFunctionTable, hi,
          createUndefinedIndirectFunctionTable]
      · intro t ht
        cases ht
    · intro hi
      constructor
      · intro hd
        have he : c.exportTable = true := by
          rcases hd with ⟨t, ht, _⟩ | he
          · cases ht
          · exact he
        simp [resolveIndirectFunctionTable, hi, he,
          createDefinedIndirectFunctionTable]
      · intro he _
        simp [resolveIndirectFunctionTable, hi, he]
  | some t =>
    obtain ⟨htab, hdef⟩ := hvalid t rfl
    constructor
    · intro hi
      constructor
      · intro h
        cases h
      · intro t' ht'
        cases ht'
        simp [resolveIndirectFunctionTable, htab, hdef, hi]
    · intro hi
      constructor
      · intro hd
        have hlive : t.isLive = true ∨ c.exportTable = true := by
          rcases hd with ⟨t', ht', hl⟩ | he
          · cases ht'
            exact Or.inl hl
          · exact Or.inr he
        rcases hlive with hl | he
        · simp [resolveIndirectFunctionTable, htab, hdef, hi, hl,
            createDefinedIndirectFunctionTable]
        · simp [resolveIndirectFunctionTable, htab, hdef, hi, he,
            createDefinedIndirectFunctionTable]
      · intro he hl
        have hl' : t.isLive = false := hl t rfl
        simp [resolveIndirectFunctionTable, htab, hdef, hi, he, hl']

/-- Witness for c1_indirect_table_three_way at a concrete input: importTable
set and no existing reserved-name symbol yields a synthesized imported table,
live, not force-exported. -/
theorem c1_indirect_table_three_way_witness :
    resolveIndirectFunctionTable { importTable := true } none =
      .ok (some { isUndefined := true, isLive := true, forceExport := false,
                  reused := false }) :=
  ((c1_indirect_table_three_way { importTable := true } none
      (fun t ht => by cases ht)).1 rfl).1 rfl

/-- C2, counterexample: in position-independent mode (here pie, after
setConfigs), the synthetic stack pointer is created undefined but is not
marked live, while memoryBase and tableBase are; this contradicts the claim
that all three are immediately marked live. -/
theorem c2_stack_pointer_counterexample :
    (findSym (createSyntheticSymbols (setConfigs { pie := true }).1)
        "__stack_pointer").map SynthSym.isLive = some false ∧
    (findSym (createSyntheticSymbols (setConfigs { pie := true }).1)
        "__memory_base").map SynthSym.isLive = some true ∧
    (findSym (createSyntheticSymbols (setConfigs { pie := true }).1)
        "__table_base").map SynthSym.isLive = some true :=
  ⟨rfl, rfl, rfl⟩

/-- C2, amended: in position-independent mode the synthetic-symbol generator
creates stackPointer, memoryBase and tableBase as undefined (imported)
globals; memoryBase and tableBase are immediately marked live, while
stackPointer is flagged used-in-regular-object but not marked live. -/
theorem c2_pic_synthetic_globals (c : Config) (hrel : c.relocatable = false)
    (hpic : c.isPic = true) :
    findSym (createSyntheticSymbols c) "__stack_pointer" =
      some { name := "__stack_pointer", kind := .global, isUndefined := true,
             isMutable := true, isLive := false, isUsedInRegularObj := true,
             is64 := c.is64.getD false } ∧
    findSym (createSyntheticSymbols c) "__memory_base" =
      some { name := "__memory_base", kind := .global, isUndefined := true,
             isLive := true, isUsedInRegularObj := true,
             is64 := c.is64.getD false } ∧
    findSym (createSyntheticSymbols c) "__table_base" =
      some { name := "__table_base", kind := .global, isUndefined := true,
             isLive := true, isUsedInRegularObj := true } := by
  cases hsm : c.sharedMemory <;>
    simp [findSym, createSyntheticSymbols, hrel, hpic, hsm,
      createUndefinedGlobal, markLive, List.find?]

/-- Witness for c2_pic_synthetic_globals at a concrete configuration. -/
theorem c2_pic_synthetic_globals_witness :
    findSym (createSyntheticSymbols { pie := true, isPic := true, importTable := true }) "__stack_pointer" =
      some { name := "__stack_pointer", kind := .global, isUndefined := true,
             isMutable := true, isLive := false, isUsedInRegularObj := true,
             is64 := false } :=
  (c2_pic_synthetic_globals { pie := true, isPic := true, importTable := true }
    rfl rfl).1

/-- C3: for every non-relocatable configuration the synthetic stack-pointer
symbol exists, is undefined (imported) exactly when position-independent mode
is set, and otherwise is a defined, mutable, zero-initialized global marked
live. -/
theorem c3_stack_pointer_gating (c : Config) (hrel : c.relocatable = false) :
    ∃ sp, findSym (createSyntheticSymbols c) "__stack_pointer" = some sp ∧
      sp.isUndefined = c.isPic ∧
      (c.isPic = false →
        sp.isMutable = true ∧ sp.initZero = true ∧ sp.isLive = true) := by
  cases hpic : c.isPic with
  | false =>
    refine ⟨markLive (createGlobalVariable c "__stack_pointer" true), ?_, rfl,
      fun _ => ⟨rfl, rfl, rfl⟩⟩
    cases hsm : c.sharedMemory <;>
      simp [findSym, createSyntheticSymbols, hrel, hpic, hsm, markLive,
        createGlobalVariable, List.find?]
  | true =>
    refine ⟨createUndefinedGlobal "__stack_pointer" true (c.is64.getD false),
      ?_, rfl, fun h => by cases h⟩
    cases hsm : c.sharedMemory <;>
      simp [findSym, createSyntheticSymbols, hrel, hpic, hsm,
        createUndefinedGlobal, List.find?]

/-- Witness for c3_stack_pointer_gating at a concrete non-pic
configuration. -/
theorem c3_stack_pointer_gating_witness :
    ∃ sp, findSym (createSyntheticSymbols {}) "__stack_pointer" = some sp ∧
      sp.isUndefined = Config.isPic {} ∧
      (Config.isPic {} = false →
        sp.isMutable = true ∧ sp.initZero = true ∧ sp.isLive = true) :=
  c3_stack_pointer_gating {} rfl

/-- C8: a symbol existing under the reserved indirect-function-table name
that is not a table kind, or that is already defined when table import is
requested, makes the resolver record a configuration error and return
without synthesizing a table symbol. -/
theorem c8_reserved_table_errors (c : Config) (t : ExistingSym)
    (h : t.isTable = false ∨ (t.isDefined = true ∧ c.importTable = true)) :
    ∃ msg, resolveIndirectFunctionTable c (some t) = .error msg := by
  rcases h with h | ⟨hd, _⟩
  · exact ⟨"reserved symbol must be of type table: __indirect_function_table",
      by simp [resolveIndirectFunctionTable, h]⟩
  · cases ht : t.isTable
    · exact ⟨"reserved symbol must be of type table: __indirect_function_table",
        by simp [resolveIndirectFunctionTable, ht]⟩
    · exact
        ⟨"reserved symbol must not be defined in input files: __indirect_function_table",
         by simp [resolveIndirectFunctionTable, ht, hd]⟩

/-- Witness for c8_reserved_table_errors: a defined reserved-name table is
rejected when table import is requested. -/
theorem c8_reserved_table_errors_witness :
    ∃ msg, resolveIndirectFunctionTable { importTable := true }
        (some { isTable := true, isDefined := true, isLive := false,
                forceExport := false }) = .error msg :=
  c8_reserved_table_errors { importTable := true }
    { isTable := true, isDefined := true, isLive := false,
      forceExport := false } (Or.inr ⟨rfl, rfl⟩)

/-- In the import branch the resolver never returns the no-table outcome and
never returns a defined table: the result is an error or an undefined
(imported) table symbol. -/
theorem resolve_import_branch (c : Config) (hi : c.importTable = true)
    (ex : Option ExistingSym) :
    resolveIndirectFunctionTable c ex ≠ .ok none ∧
    (∀ r, resolveIndirectFunctionTable c ex = .ok (some r) →
      r.isUndefined = true) := by
  cases ex with
  | none =>
    simp [resolveIndirectFunctionTable, hi,
      createUndefinedIndirectFunctionTable]
  | some t =>
    cases ht : t.isTable
    · simp [resolveIndirectFunctionTable, ht]
    · cases hd : t.isDefined
      · simp [resolveIndirectFunctionTable, ht, hd, hi]
      · simp [resolveIndirectFunctionTable, ht, hd]

/-- C7: for every non-relocatable configuration the TLS globals (mutable
tlsBase, immutable tlsSize and tlsAlign) and the TLS-init thunk function are
created exactly when shared-memory mode is set, and when shared-memory mode
is not set tlsBase is instead created as an immutable optional global. -/
theorem c7_tls_gating (c : Config) (hrel : c.relocatable = false) :
    (c.sharedMemory = true →
      findSym (createSyntheticSymbols c) "__tls_base" =
        some { name := "__tls_base", kind := .global, isUndefined := false,
               isMutable := true, initZero := true,
               is64 := c.is64.getD false } ∧
      findSym (createSyntheticSymbols c) "__tls_size" =
        some { name := "__tls_size", kind := .global, isUndefined := false,
               isMutable := false, initZero := true,
               is64 := c.is64.getD false } ∧
      findSym (createSyntheticSymbols c) "__tls_align" =
        some { name := "__tls_align", kind := .global, isUndefined := false,
               isMutable := false, initZero := true,
               is64 := c.is64.getD false } ∧
      findSym (createSyntheticSymbols c) "__wasm_init_tls" =
        some { name := "__wasm_init_tls", kind := .function,
               isUndefined := false, is64 := c.is64.getD false } ∧
      findSym (createOptionalSymbols c) "__tls_base" = none) ∧
    (c.sharedMemory = false →
      findSym (createSyntheticSymbols c) "__tls_base" = none ∧
      findSym (createSyntheticSymbols c) "__tls_size" = none ∧
      findSym (createSyntheticSymbols c) "__tls_align" = none ∧
      findSym (createSyntheticSymbols c) "__wasm_init_tls" = none ∧
      findSym (createOptionalSymbols c) "__tls_base" =
        some { name := "__tls_base", kind := .global, isUndefined := false,
               isMutable := false, initZero := true, optionalSym := true,
               is64 := c.is64.getD false }) := by
  constructor <;> intro hsm <;>
    cases hpic : c.isPic <;> cases hsh : c.shared <;>
      simp [findSym, createSyntheticSymbols, createOptionalSymbols, hrel,
        hpic, hsh, hsm, createUndefinedGlobal, createGlobalVariable,
        createOptionalGlobal, markLive, List.find?]

/-- Witness for c7_tls_gating at a concrete shared-memory configuration. -/
theorem c7_tls_gating_witness :
    findSym (createSyntheticSymbols { sharedMemory := true }) "__tls_base" =
      some { name := "__tls_base", kind := .global, isUndefined := false,
             isMutable := true, initZero := true, is64 := false } :=
  ((c7_tls_gating { sharedMemory := true } rfl).1 rfl).1

/-- C9: relocatable output combined with a non-empty entry symbol or with
garbage collection enabled records a configuration error in checkOptions,
and the error-count gate then prevents synthetic symbol creation, the wrap
transformation and reachability analysis from running. -/
theorem c9_relocatable_gate (c : Config) (hasUndef : Bool)
    (ev : ExternalEvents) (hrel : c.relocatable = true)
    (h : c.entry ≠ "" ∨ c.gcSections = true) :
    checkOptions (setConfigs c).1 hasUndef ≠ [] ∧
    (linkerMain c hasUndef ev).ranCreateSyntheticSymbols = false ∧
    (linkerMain c hasUndef ev).ranAddWrappedSymbols = false ∧
    (linkerMain c hasUndef ev).ranWrapSymbols = false ∧
    (linkerMain c hasUndef ev).ranMarkLive = false ∧
    (linkerMain c hasUndef ev).ranTableResolution = false := by
  obtain ⟨h1, h2, h3⟩ := setConfigs_preserves c
  have hentry : c.entry ≠ "" →
      "entry point specified for relocatable output file" ∈
        checkOptions (setConfigs c).1 hasUndef := by
    intro he
    unfold checkOptions
    refine List.mem_append_right _ ?_
    rw [h1, hrel, if_pos rfl]
    refine List.mem_append_left _ (List.mem_append_left _
      (List.mem_append_left _ (List.mem_append_left _
        (List.mem_append_left _ ?_))))
    rw [h2, if_pos he]
    exact List.mem_singleton_self _
  have hgc : c.gcSections = true →
      "-r and --gc-sections may not be used together" ∈
        checkOptions (setConfigs c).1 hasUndef := by
    intro hg
    unfold checkOptions
    refine List.mem_append_right _ ?_
    rw [h1, hrel, if_pos rfl]
    refine List.mem_append_left _ (List.mem_append_left _
      (List.mem_append_left _ (List.mem_append_left _
        (List.mem_append_right _ ?_))))
    rw [h3, hg, if_pos rfl]
    exact List.mem_singleton_self _
  have hne : checkOptions (setConfigs c).1 hasUndef ≠ [] := by
    rcases h with he | hg
    · exact List.ne_nil_of_mem (hentry he)
    · exact List.ne_nil_of_mem (hgc hg)
  refine ⟨hne, ?_⟩
  unfold linkerMain
  by_cases h0 : ev.createFilesErrors = []
  · have hne2 : ((setConfigs c).2 ++ checkOptions (setConfigs c).1 hasUndef)
        ≠ [] := by
      intro hq
      rw [List.append_eq_nil] at hq
      exact hne hq.2
    simp [h0, hne2]
  · simp [h0]

/-- Witness for c9_relocatable_gate at a concrete relocatable configuration
with an explicit entry point. -/
theorem c9_relocatable_gate_witness :
    checkOptions (setConfigs { relocatable := true, entry := "_start", gcSections := false }).1 false ≠ [] ∧
    (linkerMain { relocatable := true, entry := "_start", gcSections := false } false {}).ranCreateSyntheticSymbols = false ∧
    (linkerMain { relocatable := true, entry := "_start", gcSections := false } false {}).ranAddWrappedSymbols = false ∧
    (linkerMain { relocatable := true, entry := "_start", gcSections := false } false {}).ranWrapSymbols = false ∧
    (linkerMain { relocatable := true, entry := "_start", gcSections := false } false {}).ranMarkLive = false ∧
    (linkerMain { relocatable := true, entry := "_start", gcSections := false } false {}).ranTableResolution = false :=
  c9_relocatable_gate { relocatable := true, entry := "_start", gcSections := false }
    false {} rfl (Or.inl (by decide))

/-- C10: after setConfigs, isPic holds exactly when pie or shared is set;
when it holds importTable is forced to true and exportTable is an error; in
that case the indirect-table resolver can only take the import branch
(never the no-table or defined-table outcomes); and shared forces
importMemory and the import-functions unresolved-symbol policy. -/
theorem c10_derived_config (c : Config) :
    (setConfigs c).1.isPic = (c.pie || c.shared) ∧
    ((setConfigs c).1.isPic = true → (setConfigs c).1.importTable = true) ∧
    ((c.pie || c.shared) = true → c.exportTable = true →
      (setConfigs c).2 ≠ []) ∧
    (c.shared = true → (setConfigs c).1.importMemory = true ∧
      (setConfigs c).1.unresolvedSymbols = UnresolvedPolicy.importFuncs) ∧
    ((setConfigs c).1.isPic = true → ∀ ex,
      resolveIndirectFunctionTable (setConfigs c).1 ex ≠ .ok none ∧
      (∀ r, resolveIndirectFunctionTable (setConfigs c).1 ex =
          .ok (some r) → r.isUndefined = true)) := by
  have hpic : (setConfigs c).1.isPic = (c.pie || c.shared) := by
    cases hp : c.pie <;> cases hs : c.shared <;> simp [setConfigs, hp, hs]
  have himp : (setConfigs c).1.isPic = true →
      (setConfigs c).1.importTable = true := by
    cases hp : c.pie <;> cases hs : c.shared <;> simp [setConfigs, hp, hs]
  refine ⟨hpic, himp, ?_, ?_, ?_⟩
  · intro hps he
    cases hp : c.pie <;> cases hs : c.shared
    · simp [hp, hs] at hps
    · simp [setConfigs, hp, hs, he]
    · simp [setConfigs, hp, hs, he]
    · simp [setConfigs, hp, hs, he]
  · intro hs
    cases hp : c.pie <;> simp [setConfigs, hp, hs]
  · intro hp ex
    exact resolve_import_branch _ (himp hp) ex

/-- Witness for c10_derived_config at a concrete shared configuration. -/
theorem c10_derived_config_witness :
    (setConfigs { shared := true }).1.isPic = true ∧
    (setConfigs { shared := true }).1.importTable = true ∧
    (setConfigs { shared := true }).1.importMemory = true ∧
    (setConfigs { shared := true }).1.unresolvedSymbols =
      UnresolvedPolicy.importFuncs :=
  ⟨(c10_derived_config { shared := true }).1,
   (c10_derived_config { shared := true }).2.1
     (c10_derived_config { shared := true }).1,
   ((c10_derived_config { shared := true }).2.2.2.1 rfl).1,
   ((c10_derived_config { shared := true }).2.2.2.1 rfl).2⟩

/-! Wrap-pass lemmas. -/

/-- One loop iteration either leaves the seen set unchanged (name already
seen) or appends the name. -/
theorem addWrappedStep_seen (s : WrapState) (a : String) :
    (addWrappedStep s a).seen =
      if a ∈ s.seen then s.seen else s.seen ++ [a] := by
  by_cases h : a ∈ s.seen
  · simp [addWrappedStep, h]
  · simp only [addWrappedStep, if_neg h]
    cases ({ s with seen := s.seen ++ [a] } : WrapState).st.find a <;> simp

/-- A name already seen is again a no-op iteration. -/
theorem addWrappedStep_of_seen (s : WrapState) (a : String)
    (h : a ∈ s.seen) : addWrappedStep s a = s := by
  simp [addWrappedStep, h]

/-- Names in the seen set stay in the seen set across the fold. -/
theorem seen_mono_foldl (l : List String) (s : WrapState) (x : String)
    (h : x ∈ s.seen) : x ∈ (l.foldl addWrappedStep s).seen := by
  induction l generalizing s with
  | nil => exact h
  | cons a l ih =>
    refine ih (addWrappedStep s a) ?_
    rw [addWrappedStep_seen]
    by_cases ha : a ∈ s.seen
    · simpa [ha] using h
    · simp [ha, List.mem_append, h]

/-- Every processed name ends up in the seen set. -/
theorem mem_seen_foldl (l : List String) (s : WrapState) (n : String)
    (h : n ∈ l) : n ∈ (l.foldl addWrappedStep s).seen := by
  induction l generalizing s with
  | nil => cases h
  | cons a l ih =>
    rcases List.mem_cons.mp h with rfl | hn
    · refine seen_mono_foldl l (addWrappedStep s n) n ?_
      rw [addWrappedStep_seen]
      by_cases hn : n ∈ s.seen
      · simp [hn]
      · simp [hn]
    · exact ih (addWrappedStep s a) hn

/-- The rename map of a single wrapped record, pointwise. -/
theorem wrapSlot_single (w : WrappedSymbol) (h : w.real ≠ w.sym) (s : Nat) :
    wrapSlot (buildWrapMap [w]) s =
      if s = w.sym then w.wrap else if s = w.real then w.sym else s := by
  by_cases h1 : s = w.sym
  · subst h1
    simp [wrapSlot, buildWrapMap, Ne.symm h]
  · by_cases h2 : s = w.real
    · subst h2
      simp [wrapSlot, buildWrapMap, h1]
    · simp [wrapSlot, buildWrapMap, h1, h2]

/-! Wrap-pass claim theorems. -/

/-- C4: after the wrap rename pass for one wrapped record with an existing
symbol, every symbol-reference slot in every input unit and every
symbol-table entry that referenced the original symbol resolves to the wrap
shadow, every slot that referenced the real shadow resolves to the original
symbol, and all other slots are unchanged (symbol-table entry names are also
unchanged). -/
theorem c4_wrap_rename (w : WrappedSymbol) (h : w.real ≠ w.sym)
    (files : List (List Nat)) (entries : List (String × Nat)) :
    List.Forall₂ (List.Forall₂ (fun old new =>
        (old = w.sym → new = w.wrap) ∧ (old = w.real → new = w.sym) ∧
        (old ≠ w.sym → old ≠ w.real → new = old)))
      files (wrapSymbols [w] files entries).1 ∧
    List.Forall₂ (fun (old new : String × Nat) =>
        old.1 = new.1 ∧
        (old.2 = w.sym → new.2 = w.wrap) ∧ (old.2 = w.real → new.2 = w.sym) ∧
        (old.2 ≠ w.sym → old.2 ≠ w.real → new.2 = old.2))
      entries (wrapSymbols [w] files entries).2 := by
  have hpt : ∀ s : Nat,
      (s = w.sym → wrapSlot (buildWrapMap [w]) s = w.wrap) ∧
      (s = w.real → wrapSlot (buildWrapMap [w]) s = w.sym) ∧
      (s ≠ w.sym → s ≠ w.real → wrapSlot (buildWrapMap [w]) s = s) := by
    intro s
    rw [wrapSlot_single w h s]
    refine ⟨fun h1 => ?_, fun h2 => ?_, fun h1 h2 => ?_⟩
    · simp [h1]
    · subst h2
      simp [h]
    · simp [h1, h2]
  constructor
  · refine forall₂_map_self files ?_
    intro unit _
    refine forall₂_map_self unit ?_
    intro s _
    exact hpt s
  · refine forall₂_map_self entries ?_
    intro e _
    exact ⟨rfl, hpt e.2⟩

/-- Witness for c4_wrap_rename at a concrete record and input. -/
theorem c4_wrap_rename_witness :
    List.Forall₂ (List.Forall₂ (fun old new =>
        (old = 0 → new = 2) ∧ (old = 1 → new = 0) ∧
        (old ≠ 0 → old ≠ 1 → new = old)))
      [[0, 1, 3]]
      (wrapSymbols [{ sym := 0, real := 1, wrap := 2 }] [[0, 1, 3]]
        [("foo", 0)]).1 ∧
    List.Forall₂ (fun (old new : String × Nat) =>
        old.1 = new.1 ∧
        (old.2 = 0 → new.2 = 2) ∧ (old.2 = 1 → new.2 = 0) ∧
        (old.2 ≠ 0 → old.2 ≠ 1 → new.2 = old.2))
      [("foo", 0)]
      (wrapSymbols [{ sym := 0, real := 1, wrap := 2 }] [[0, 1, 3]]
        [("foo", 0)]).2 :=
  c4_wrap_rename { sym := 0, real := 1, wrap := 2 } (by decide)
    [[0, 1, 3]] [("foo", 0)]

/-- C5: a duplicate wrap request for a name already requested is a no-op:
appending a second request for a name that already occurs in the argument
list leaves both the symbol table and the wrapped-record vector of
addWrappedSymbols unchanged. -/
theorem c5_wrap_dedup (args : List String) (n : String) (st : Symtab)
    (h : n ∈ args) :
    addWrappedSymbols (args ++ [n]) st = addWrappedSymbols args st := by
  unfold addWrappedSymbols
  rw [List.foldl_append, List.foldl_cons, List.foldl_nil,
    addWrappedStep_of_seen _ _ (mem_seen_foldl args _ n h)]

/-- Witness for c5_wrap_dedup at a concrete input. -/
theorem c5_wrap_dedup_witness :
    addWrappedSymbols (["foo"] ++ ["foo"])
        { syms := [("foo", { id := 0 })], nextId := 1 } =
      addWrappedSymbols ["foo"]
        { syms := [("foo", { id := 0 })], nextId := 1 } :=
  c5_wrap_dedup ["foo"] "foo" { syms := [("foo", { id := 0 })], nextId := 1 }
    (by decide)

/-- C6: wrapping a name whose symbol S exists creates the two undefined
shadows and sets the flags exactly as the claim states: canInline is
cleared on S and on the real shadow, usedInRegularObj is set on S and on
the wrap shadow, and usedInRegularObj is cleared on the real shadow (the
wrap shadow keeps canInline). -/
theorem c6_wrap_flags (n : String) (ci u : Bool)
    (hr : ("__real_" ++ n) ≠ n) (hw : ("__wrap_" ++ n) ≠ n)
    (hrw : ("__wrap_" ++ n) ≠ ("__real_" ++ n)) :
    addWrappedSymbols [n]
        { syms := [(n, { id := 0, canInline := ci, isUsedInRegularObj := u })],
          nextId := 1 } =
      ({ syms :=
          [(n, { id := 0, canInline := false, isUsedInRegularObj := true }),
           ("__real_" ++ n,
            { id := 1, canInline := false, isUsedInRegularObj := false }),
           ("__wrap_" ++ n,
            { id := 2, canInline := true, isUsedInRegularObj := true })],
         nextId := 3 },
       [{ sym := 0, real := 1, wrap := 2 }]) := by
  have h1 : (n == "__real_" ++ n) = false := by
    rw [beq_eq_false_iff_ne]
    exact Ne.symm hr
  have h2 : (n == "__wrap_" ++ n) = false := by
    rw [beq_eq_false_iff_ne]
    exact Ne.symm hw
  have h3 : (("__real_" ++ n) == "__wrap_" ++ n) = false := by
    rw [beq_eq_false_iff_ne]
    exact Ne.symm hrw
  simp [addWrappedSymbols, addWrappedStep, Symtab.find, Symtab.addUndefined,
    Symtab.update, List.find?, h1, h2, h3]

/-- Witness for c6_wrap_flags at a concrete name. -/
theorem c6_wrap_flags_witness :
    addWrappedSymbols ["foo"]
        { syms := [("foo", { id := 0, canInline := true,
                             isUsedInRegularObj := false })],
          nextId := 1 } =
      ({ syms :=
          [("foo", { id := 0, canInline := false, isUsedInRegularObj := true }),
           ("__real_" ++ "foo",
            { id := 1, canInline := false, isUsedInRegularObj := false }),
           ("__wrap_" ++ "foo",
            { id := 2, canInline := true, isUsedInRegularObj := true })],
         nextId := 3 },
       [{ sym := 0, real := 1, wrap := 2 }]) :=
  c6_wrap_flags "foo" true false (by decide) (by decide) (by decide)

end WasmLd
